import Mathlib

/-!
Shallow embedding, in Lean 4, of the TSDuck plugin code under verification:
the `mux`, `null`, `pcrextract` and `scrambler` tsp plugins.  Pure data and
control flow of the C++ sources are translated to executable Lean
definitions; external collaborators (file I/O, the ECMG network client, the
cipher, the service discovery) are abstracted as explicit state or
parameters, as the specification treats them as opaque.
-/

/-- Null (stuffing) PID value 0x1FFF. -/
def PID_NULL : Nat := 0x1FFF

/-- MPEG system clock subfactor: PCR ticks (27 MHz) per PTS tick (90 kHz). -/
def SYSTEM_CLOCK_SUBFACTOR : Nat := 300

/-- Abstract view of one 188-byte TS packet: the header/adaptation fields the
plugins under study read or write (the packet accessor primitives are an
out-of-scope collaborator, "a typed view over 188 bytes"). -/
structure TSPacket where
  pid : Nat
  hasPTS : Bool
  pts : Nat
  hasPCR : Bool
  pcr : Nat
  cc : Nat
  deriving DecidableEq, Repr

/-- The all-stuffing null packet (PID 0x1FFF, no PCR/PTS). -/
def NullPacket : TSPacket :=
  { pid := PID_NULL, hasPTS := false, pts := 0, hasPCR := false, pcr := 0, cc := 0 }

/-- Per-packet status returned by a processor plugin. -/
inductive Status where
  | TSP_OK
  | TSP_NULL
  | TSP_DROP
  | TSP_END
  deriving DecidableEq, Repr

open Status

namespace Mux

/-- State of `ts::MuxPlugin` (tsplugin_mux.cpp): option values fixed by
`start()` plus the mutable per-packet state.  The side file is embedded as
the list of TS packets still to be read (`--repeat` is accounted for by the
caller supplying the repeated content); an empty list models a failed
`_file.read`.  `ts_bitrate` stands for `tsp->bitrate()`, `joint_terminated`
for the effect of `tsp->jointTerminate()`. -/
structure MuxState where
  terminate : Bool
  update_cc : Bool
  check_pid_conflict : Bool
  ts_pids : List Nat
  cc : Nat → Nat
  force_pid : Bool
  force_pid_value : Nat
  bitrate : Nat
  inter_pkt : Nat
  pid_next_pkt : Nat
  packet_count : Nat
  inter_time : Nat
  min_pts : Nat
  pts_pid : Nat
  max_pts : Nat
  pts_range_ok : Bool
  max_insert_count : Nat
  inserted_packet_count : Nat
  youngest_pts : Nat
  pts_last_inserted : Nat
  file : List TSPacket
  joint_termination : Bool
  joint_terminated : Bool
  ts_bitrate : Nat

/-- The "Get time stamp from current packet" step: the `currentpts` value of
`ts::MuxPlugin::processPacket` (0 when the packet carries no usable
PTS/PCR), computed from the state before the `_pts_pid` latch. -/
def getTimeStamp (s : MuxState) (pkt : TSPacket) : Nat :=
  if pkt.pid = s.pts_pid ∧ pkt.hasPTS then pkt.pts
  else if (pkt.pid = s.pts_pid ∨ s.pts_pid = 0) ∧ pkt.hasPCR then
    pkt.pcr / SYSTEM_CLOCK_SUBFACTOR
  else 0

/-- The `_pts_pid = pid` latch of the same `else if` branch: when the
packet did not match the PTS case but carries a PCR (and either matches
`_pts_pid` or no `--pts-pid` was set), the reference PID latches to it. -/
def latchPtsPid (s : MuxState) (pkt : TSPacket) : MuxState :=
  if ¬(pkt.pid = s.pts_pid ∧ pkt.hasPTS) ∧ (pkt.pid = s.pts_pid ∨ s.pts_pid = 0) ∧ pkt.hasPCR
  then { s with pts_pid := pkt.pid } else s

/-- The "check if min-pts is reached" step. -/
def checkMinPts (s : MuxState) (pid currentpts : Nat) : MuxState :=
  if s.min_pts ≠ 0 ∧ (s.pts_pid = 0 ∨ pid = s.pts_pid) ∧
      s.min_pts < currentpts ∧ (currentpts < s.max_pts ∨ s.max_pts = 0)
  then { s with pts_range_ok := true } else s

/-- The "check if inter-time is reached" step. -/
def checkInterTime (s : MuxState) : MuxState :=
  if s.inter_time ≠ 0 ∧ s.pts_last_inserted ≠ 0 then
    { s with pts_range_ok :=
        decide (s.pts_last_inserted + s.inter_time < s.youngest_pts) }
  else s

/-- The "check if max-pts is reached" step. -/
def checkMaxPts (s : MuxState) (pid currentpts : Nat) : MuxState :=
  if s.max_pts ≠ 0 ∧ s.max_pts < currentpts ∧ (pid = s.pts_pid ∨ s.pts_pid = 0)
  then { s with pts_range_ok := false } else s

/-- The timestamp-tracking block of `ts::MuxPlugin::processPacket`:
get the time stamp of the current packet, latch `_pts_pid`, and when a
time stamp was found run the min-pts / inter-time / max-pts updates of
`_youngest_pts` and `_pts_range_ok`, in source order. -/
def timestampUpdate (s : MuxState) (pkt : TSPacket) : MuxState :=
  let pid := pkt.pid
  let currentpts := getTimeStamp s pkt
  let s := latchPtsPid s pkt
  -- Handle min max pts, modify _pts_range_ok signal
  if 0 < currentpts then
    let s := { s with youngest_pts := currentpts }
    let s := checkMinPts s pid currentpts
    let s := checkInterTime s
    checkMaxPts s pid currentpts
  else s

/-- The insertion block of `ts::MuxPlugin::processPacket`: read one packet
from the side file over the current stuffing slot, handle read failure per
the termination options, rewrite the PID, check PID conflicts, update the
continuity counter and advance the insertion point. -/
def insertFromFile (s : MuxState) (pkt : TSPacket) : Status × TSPacket × MuxState :=
  match s.file with
  | [] =>
    -- File read error / end of file.
    if s.joint_termination then (TSP_OK, pkt, { s with joint_terminated := true })
    else if s.terminate then (TSP_END, pkt, s)
    else (TSP_OK, pkt, s)
  | newpkt :: rest =>
    let s := { s with file := rest,
                      inserted_packet_count := s.inserted_packet_count + 1,
                      pts_last_inserted := s.youngest_pts }
    let s := if s.inter_time ≠ 0 then { s with pts_range_ok := false } else s
    -- Get PID of new packet. Perform checks.
    let newpkt := if s.force_pid then { newpkt with pid := s.force_pid_value } else newpkt
    let pid := newpkt.pid
    if s.check_pid_conflict ∧ pid ∈ s.ts_pids then
      (TSP_END, newpkt, s)
    else
      let newpkt := if s.update_cc then { newpkt with cc := s.cc pid } else newpkt
      let s := if s.update_cc then
                 { s with cc := Function.update s.cc pid ((s.cc pid + 1) % 16) } else s
      -- Next insertion point
      (TSP_OK, newpkt, { s with pid_next_pkt := s.pid_next_pkt + s.inter_pkt })

/-- Function `ts::MuxPlugin::processPacket`, translated line by line; its timestamp
block and its insertion block are the helper functions above.  Returns the
status, the packet as left in the buffer slot, and the new state. -/
def processPacket (s : MuxState) (pkt : TSPacket) : Status × TSPacket × MuxState :=
  -- Initialization sequences (executed only once): --bitrate conversion.
  if s.packet_count = 0 ∧ s.bitrate ≠ 0 ∧ s.ts_bitrate < s.bitrate then
    (TSP_END, pkt, s)
  else
  let s := if s.packet_count = 0 ∧ s.bitrate ≠ 0 then
             { s with inter_pkt := s.ts_bitrate / s.bitrate } else s
  -- Count TS
  let s := { s with packet_count := s.packet_count + 1 }
  let s := timestampUpdate s pkt
  -- Non-stuffing is transparently passed
  if pkt.pid ≠ PID_NULL then
    (TSP_OK, pkt, { s with ts_pids := pkt.pid :: s.ts_pids })
  -- If not yet time to insert a packet, transmit stuffing
  else if s.packet_count < s.pid_next_pkt then
    (TSP_OK, pkt, s)
  -- If we are outside the PTS range (if any), transmit stuffing.
  else if ¬s.pts_range_ok ∨ (s.max_insert_count ≠ 0 ∧ s.max_insert_count ≤ s.inserted_packet_count) then
    (TSP_OK, pkt, s)
  else
    -- Time to insert a new packet.
    insertFromFile s pkt

/-- Run the mux plugin over a list of input packets, collecting the per-slot
status and output packet. -/
def run (s : MuxState) : List TSPacket → List (Status × TSPacket) × MuxState
  | [] => ([], s)
  | pkt :: rest =>
    let r := processPacket s pkt
    let t := run r.2.2 rest
    ((r.1, r.2.1) :: t.1, t.2)

/-- Mux state as configured by `start()` for the options
`--inter-packet 100 --pid 0x200` (all other options at their defaults),
with the infinitely repeated 10-packet side file of PID-0x200 packets
embedded as 1000 available reads. -/
def interPacketState : MuxState :=
  { terminate := false
    update_cc := true
    check_pid_conflict := true
    ts_pids := []
    cc := fun _ => 0
    force_pid := true
    force_pid_value := 0x200
    bitrate := 0
    inter_pkt := 100
    pid_next_pkt := 0
    packet_count := 0
    inter_time := 0
    min_pts := 0
    pts_pid := 0
    max_pts := 0
    pts_range_ok := true
    max_insert_count := 0
    inserted_packet_count := 0
    youngest_pts := 0
    pts_last_inserted := 0
    file := List.replicate 1000
      { pid := 0x200, hasPTS := false, pts := 0, hasPCR := false, pcr := 0, cc := 0 }
    joint_termination := false
    joint_terminated := false
    ts_bitrate := 0 }

/-- Output indices (0-based) at which the mux run over 1000 stuffing packets
emits an inserted (PID 0x200) packet. -/
def interPacketInsertions : List Nat :=
  ((run interPacketState (List.replicate 1000 NullPacket)).1.enum.filter
    (fun p => p.2.2.pid = 0x200)).map Prod.fst

/-- The list of claimed insertion indices of the specification scenario:
0, 100, 200, ..., 900. -/
def claimedInsertions : List Nat :=
  [0, 100, 200, 300, 400, 500, 600, 700, 800, 900]

/-- A side-file packet with PID 0x200. -/
def sidePacket : TSPacket :=
  { pid := 0x200, hasPTS := false, pts := 0, hasPCR := false, pcr := 0, cc := 0 }

/-- Mux state for a PID-conflict scenario: the transport stream already
carries PID 0x200 (recorded in `ts_pids`) and the side file packets also
have PID 0x200, with the default conflict check enabled. -/
def conflictState : MuxState :=
  { interPacketState with
      ts_pids := [0x200]
      force_pid := false
      file := [sidePacket] }

/-- Mux state whose `--max-insert-count` cap of 5 has been reached. -/
def cappedState : MuxState :=
  { interPacketState with max_insert_count := 5, inserted_packet_count := 5 }

/-- A null (stuffing) packet that carries a PCR, the "impossible in
practice" input of the specification's open question. -/
def nullPcrPacket : TSPacket :=
  { pid := PID_NULL, hasPTS := false, pts := 0, hasPCR := true, pcr := 600, cc := 0 }

/-- Small mux state with `--pts-pid` unset (`pts_pid = 0`), used to evaluate
the PCR-latch behaviour. -/
def latchState : MuxState := { interPacketState with file := [] }

end Mux

namespace NullInput

/-- Value of `std::numeric_limits<PacketCounter>::max()`. -/
def PACKET_COUNTER_MAX : Nat := 2 ^ 64 - 1

/-- State of `ts::NullInput` (tsplugin_null.cpp).  `joint_termination`
models `tsp->useJointTermination()`, `joint_terminated` the effect of
`tsp->jointTerminate()`. -/
structure State where
  max_count : Nat
  count : Nat
  joint_termination : Bool
  joint_terminated : Bool
  deriving Repr

/-- The fill loop of `ts::NullInput::receive`:
`for (n = 0; n < max_packets && _count++ < _max_count; buffer[n++] = NullPacket) {}`.
First argument is `_max_count`; the recursion is on the remaining buffer
room (`max_packets - n`), the last argument is `_count`.  Returns the
packets stored in the buffer and the final `_count` (note the post-increment
of `_count` also on the failing comparison). -/
def receiveLoop (maxCount : Nat) : Nat → Nat → List TSPacket × Nat
  | 0, c => ([], c)
  | m + 1, c =>
    if c < maxCount then
      let r := receiveLoop maxCount m (c + 1)
      (NullPacket :: r.1, r.2)
    else ([], c + 1)

/-- Function `ts::NullInput::receive`. -/
def receive (s : State) (max_packets : Nat) : List TSPacket × State :=
  -- If "joint termination" reached for this plugin
  let s := if s.max_count ≤ s.count ∧ s.joint_termination then
             { s with joint_terminated := true, max_count := PACKET_COUNTER_MAX }
           else s
  -- Fill buffer
  let r := receiveLoop s.max_count max_packets s.count
  (r.1, { s with count := r.2 })

/-- Successive `receive` calls with the given `max_packets` requests,
collecting the returned buffers. -/
def run (s : State) : List Nat → List (List TSPacket) × State
  | [] => ([], s)
  | m :: rest =>
    let r := receive s m
    let t := run r.2 rest
    (r.1 :: t.1, t.2)

/-- State as configured by `ts::NullInput::start()` for a count argument `M`
and without `--joint-termination`. -/
def init (M : Nat) : State :=
  { max_count := M, count := 0, joint_termination := false, joint_terminated := false }

end NullInput

namespace PCRExtract

/-- MPEG PTS/DTS scale: timestamps wrap at 2^33. -/
def PTS_DTS_SCALE : Nat := 2 ^ 33

/-- Modelled from the spec: the library comparator `ts::SequencedPTS`
(declared in the TSDuck headers, which are not part of the source tree
under study).  Per the specification's good-PTS rule, `pts2` follows
`pts1` iff `pts2` is numerically greater than `pts1` modulo the 2^33
wrap, i.e. the wrapped difference, read as a signed value in
`(-2^32, 2^32)`, is positive. -/
def SequencedPTS (pts1 pts2 : Nat) : Bool :=
  decide (0 < (pts2 + PTS_DTS_SCALE - pts1) % PTS_DTS_SCALE) &&
  decide ((pts2 + PTS_DTS_SCALE - pts1) % PTS_DTS_SCALE < 2 ^ 32)

/-- The PTS-relevant part of `ts::PCRExtractPlugin::PIDContext`. -/
structure PIDContext where
  pts_count : Nat
  first_pts : Nat
  last_good_pts : Nat
  deriving DecidableEq, Repr

/-- Initial `PIDContext` (the C++ default constructor). -/
def PIDContext.init : PIDContext :=
  { pts_count := 0, first_pts := 0, last_good_pts := 0 }

/-- The PTS branch of `ts::PCRExtractPlugin::processPacket` (the
`if (has_pts)` block) for one PID: updates the context and reports the
observation or not.  `good_pts_only` is `--good-pts-only`, `get_pts` the
resolved `_get_pts` flag.  Returns `(reported, new context)`. -/
def ptsStep (good_pts_only get_pts : Bool) (pc : PIDContext) (pts : Nat) :
    Bool × PIDContext :=
  let first := pc.pts_count = 0
  let pc := { pc with pts_count := pc.pts_count + 1,
                      first_pts := if first then pts else pc.first_pts,
                      last_good_pts := if first then pts else pc.last_good_pts }
  -- Check if this is a "good" PTS, ie. greater than the last good PTS
  let good_pts := SequencedPTS pc.last_good_pts pts
  let pc := if good_pts then { pc with last_good_pts := pts } else pc
  (get_pts && (good_pts || !good_pts_only), pc)

/-- Option values of `ts::PCRExtractPlugin` as read by `start()`
(`separator = none` models an absent `--separator`). -/
structure Options where
  csv : Bool
  log : Bool
  noheader : Bool
  good_pts_only : Bool
  pts : Bool
  dts : Bool
  pcr : Bool
  opcr : Bool
  output_name : String
  separator : Option String

/-- The CSV header row written by `ts::PCRExtractPlugin::start`. -/
def csvHeader (sep : String) : String :=
  "PID" ++ sep ++ "Packet index in TS" ++ sep ++ "Packet index in PID" ++ sep ++
  "Type" ++ sep ++ "Count in PID" ++ sep ++ "Value" ++ sep ++
  "Value offset in PID" ++ sep ++ "Offset from PCR"

/-- The header-producing part of `ts::PCRExtractPlugin::start`: resolves
`_separator`, `_csv_format` and `_log_format` as the code does, and
returns the header line written to the output stream, if any. -/
def startHeaderLine (o : Options) : Option String :=
  let sep := o.separator.getD ";"
  let csv_format := o.csv || !o.output_name.isEmpty
  let log_format := o.log
  let csv_format := if !csv_format && !log_format then true else csv_format
  if csv_format && !o.noheader then some (csvHeader sep) else none

/-- Options `--pcr --csv` only. -/
def pcrCsvOptions : Options :=
  { csv := true, log := false, noheader := false, good_pts_only := false,
    pts := false, dts := false, pcr := true, opcr := false,
    output_name := "", separator := none }

end PCRExtract

namespace Scrambler

/-- Modelled from the spec: the library helper `ts::PacketDistance`
(not part of the source tree under study) converting a duration in
milliseconds at a TS bitrate to a TS packet count.  Its exact value is
irrelevant to the claims below; only its use at the scheduling points is. -/
def packetDistance (bitrate ms : Nat) : Nat :=
  bitrate * ms / (8 * 188 * 1000)

/-- Data of `ts::ScramblerPlugin::CryptoPeriod`: crypto-period number, the
ECM-ready flag set by the asynchronous ECMG callback, the packetized ECM
with its emission index, and the two control words. -/
structure CryptoPeriod where
  cp_number : Nat
  ecm_ok : Bool
  ecm : List TSPacket
  ecm_pkt_index : Nat
  cw_current : List Nat
  cw_next : List Nat
  deriving Repr

/-- State of `ts::ScramblerPlugin` (tsplugin_scrambler.cpp).  The cipher
`_scrambling` is abstracted to its current parity and control word
(`scr_parity`, `scr_cw`), the ECMG and random generator to a stream `rng`
of fresh control words, the service discovery to the observable fields it
drives (`service_nonexistent`, `abort`, `scrambled_pids`). -/
structure ScramblerState where
  use_service : Bool
  need_cp : Bool
  need_ecm : Bool
  degraded_mode : Bool
  abort : Bool
  service_nonexistent : Bool
  packet_count : Nat
  pkt_insert_ecm : Nat
  pkt_change_cw : Nat
  pkt_change_ecm : Nat
  ts_bitrate : Nat
  ecm_bitrate : Nat
  cp_duration : Nat
  ecm_pid : Nat
  ecm_cc : Nat
  scrambled_pids : List Nat
  input_pids : List Nat
  cp0 : CryptoPeriod
  cp1 : CryptoPeriod
  current_cw : Nat
  current_ecm : Nat
  scr_parity : Nat
  scr_cw : List Nat
  rng : Nat → List Nat
  rngIdx : Nat

/-- Slot `_cp[i]` for a masked index `i` of 0 or 1. -/
def cpSlot (s : ScramblerState) (i : Nat) : CryptoPeriod :=
  if i = 0 then s.cp0 else s.cp1

/-- Store into `_cp[i]`. -/
def setSlot (s : ScramblerState) (i : Nat) (cp : CryptoPeriod) : ScramblerState :=
  if i = 0 then { s with cp0 := cp } else { s with cp1 := cp }

/-- Accessor `currentCW()`, that is `_cp[_current_cw]`. -/
def currentCW (s : ScramblerState) : CryptoPeriod := cpSlot s s.current_cw

/-- Accessor `nextECM()`, that is `_cp[(_current_ecm + 1) & 0x01]`. -/
def nextECM (s : ScramblerState) : CryptoPeriod :=
  cpSlot s ((s.current_ecm + 1) &&& 1)

/-- Method `CryptoPeriod::initScramblerKey`: set the cipher parity from the
crypto-period number and, when ECMs are in use, load `_cw_current` as the
scrambling control word (`setEncryptParity` / `setCW`; the cipher itself
is an out-of-scope collaborator, modelled as always accepting the key). -/
def initScramblerKey (cp : CryptoPeriod) (s : ScramblerState) : ScramblerState :=
  { s with scr_parity := cp.cp_number % 2,
           scr_cw := if s.need_ecm then cp.cw_current else s.scr_cw }

/-- The call `nextCW().initNext(currentCW())`: re-initialize the next-CW slot as the
crypto-period following the current one; with ECMs in use this draws a
fresh random control word and submits the ECM generation (asynchronously,
so `ecm_ok` drops to `false` until the ECMG callback). -/
def initNextSlot (s : ScramblerState) : ScramblerState :=
  let j := (s.current_cw + 1) &&& 1
  let cur := cpSlot s s.current_cw
  let old := cpSlot s j
  if s.need_ecm then
    let fresh := s.rng s.rngIdx
    setSlot { s with rngIdx := s.rngIdx + 1 } j
      { cp_number := cur.cp_number + 1, ecm_ok := false,
        ecm := old.ecm, ecm_pkt_index := old.ecm_pkt_index,
        cw_current := cur.cw_next, cw_next := fresh }
  else
    setSlot s j { old with cp_number := cur.cp_number + 1 }

/-- Method `ts::ScramblerPlugin::inDegradedMode`: check whether we are in, or now
enter, degraded mode; returns the answer and the (possibly updated) state. -/
def inDegradedMode (s : ScramblerState) : Bool × ScramblerState :=
  if !s.need_ecm then (false, s)
  else if s.degraded_mode then (true, s)
  else if (nextECM s).ecm_ok then (false, s)
  else (true, { s with degraded_mode := true })

/-- Method `ts::ScramblerPlugin::changeCW` (the cipher re-key is modelled as always
succeeding, so only the state effect remains). -/
def changeCW (s : ScramblerState) : ScramblerState :=
  let r := inDegradedMode s
  let s := r.2
  -- Allowed to change CW only if not in degraded mode
  if r.1 then s
  else
    -- Point to next crypto-period
    let s := { s with current_cw := (s.current_cw + 1) &&& 1 }
    -- Use new control word
    let s := initScramblerKey (currentCW s) s
    -- Determine new transition point.
    let s := if s.need_cp then
               { s with pkt_change_cw :=
                   s.packet_count + packetDistance s.ts_bitrate s.cp_duration }
             else s
    -- Generate next ECM when using ECM(N) in cp(N)
    if s.need_ecm ∧ s.current_ecm = s.current_cw then initNextSlot s else s

/-- Method `ts::ScramblerPlugin::changeECM`. -/
def changeECM (s : ScramblerState) : ScramblerState :=
  if s.need_ecm then
    let r := inDegradedMode s
    let s := r.2
    if r.1 then s
    else
      let s := { s with current_ecm := (s.current_ecm + 1) &&& 1 }
      let s := { s with pkt_change_ecm :=
                   s.packet_count + packetDistance s.ts_bitrate s.cp_duration }
      if s.current_ecm = s.current_cw then initNextSlot s else s
  else s

/-- The `delay_start` validation of `ts::ScramblerPlugin::start` after the
ECMG connection (`_delay_start > _cp_duration / 2 || _delay_start <
-_cp_duration / 2`, C++ `int64_t` division truncating toward zero):
`true` means the configuration is rejected and `start` returns `false`. -/
def delayStartRejected (delay_start cp_duration : Int) : Bool :=
  decide (Int.tdiv cp_duration 2 < delay_start) ||
  decide (delay_start < Int.tdiv (-cp_duration) 2)

/-- State pipeline of `ts::ScramblerPlugin::processPacket` up to the service
discovery: count the packet, track input PIDs, refresh the TS bitrate from
`tsp->bitrate()` (`br`), and feed the service discovery (`feed` abstracts
`_service.feedPacket`, whose observable effects — service resolution, PMT
analysis via `handlePMT` — land in the state fields). -/
def entryState (feed : ScramblerState → ScramblerState) (s : ScramblerState)
    (pkt : TSPacket) (br : Nat) : ScramblerState :=
  let s := { s with packet_count := s.packet_count + 1 }
  let s := { s with input_pids := pkt.pid :: s.input_pids }
  let s := if br ≠ 0 then { s with ts_bitrate := br } else s
  if s.use_service then feed s else s

/-- The leading checks of `ts::ScramblerPlugin::processPacket`
(lines up to the `_scrambled_pids.none()` test): returns `some status`
when the function returns there, `none` when control falls through to the
PMT / crypto-period / scrambling logic. -/
def processPacketEntry (feed : ScramblerState → ScramblerState)
    (s : ScramblerState) (pkt : TSPacket) (br : Nat) :
    Option Status × ScramblerState :=
  let s := entryState feed s pkt br
  -- If the service is definitely unknown or a fatal error occurred, give up.
  if s.abort || s.service_nonexistent then (some TSP_END, s)
  -- Abort if allocated PID for ECM is already present in TS
  else if s.ecm_pid ≠ PID_NULL ∧ pkt.pid = s.ecm_pid then (some TSP_END, s)
  -- As long as we do not know which PID's to scramble, nullify all packets
  else if s.scrambled_pids.isEmpty then (some TSP_NULL, s)
  else (none, s)

/-- A concrete packet of the scrambled service. -/
def servicePacket : TSPacket :=
  { pid := 0x100, hasPTS := false, pts := 0, hasPCR := false, pcr := 0, cc := 0 }

/-- A concrete scrambler state in degraded mode with ECMs in use, for the
witness instances. -/
def degradedExample : ScramblerState :=
  { use_service := true, need_cp := true, need_ecm := true,
    degraded_mode := true, abort := false, service_nonexistent := false,
    packet_count := 42, pkt_insert_ecm := 0, pkt_change_cw := 50,
    pkt_change_ecm := 60, ts_bitrate := 1000000, ecm_bitrate := 30000,
    cp_duration := 10000, ecm_pid := 0x1000, ecm_cc := 3,
    scrambled_pids := [0x101], input_pids := [0x100],
    cp0 := { cp_number := 4, ecm_ok := true, ecm := [], ecm_pkt_index := 0,
             cw_current := [1, 2], cw_next := [3, 4] },
    cp1 := { cp_number := 5, ecm_ok := false, ecm := [], ecm_pkt_index := 0,
             cw_current := [3, 4], cw_next := [5, 6] },
    current_cw := 0, current_ecm := 0, scr_parity := 0, scr_cw := [1, 2],
    rng := fun _ => [], rngIdx := 0 }

/-- A concrete scrambler state in which the PMT has not been analyzed yet
(the set of PIDs to scramble is still empty). -/
def prePmtExample : ScramblerState :=
  { degradedExample with scrambled_pids := [], degraded_mode := false }

end Scrambler

/-! ## Theorems -/

namespace Scrambler

theorem setSlot_degraded_mode (s : ScramblerState) (j : Nat) (cp : CryptoPeriod) :
    (setSlot s j cp).degraded_mode = s.degraded_mode := by
  unfold setSlot; split <;> rfl

theorem initNextSlot_degraded_mode (s : ScramblerState) :
    (initNextSlot s).degraded_mode = s.degraded_mode := by
  simp only [initNextSlot]
  split <;> rw [setSlot_degraded_mode]

theorem changeCW_degraded_mode (s : ScramblerState) :
    (changeCW s).degraded_mode = (inDegradedMode s).2.degraded_mode := by
  rcases h : inDegradedMode s with ⟨b, t⟩
  simp only [changeCW, h]
  cases b
  · simp only [Bool.false_eq_true, if_false]
    repeat' split
    all_goals simp [initNextSlot_degraded_mode, initScramblerKey]
  · simp

theorem changeECM_degraded_mode (s : ScramblerState) :
    (changeECM s).degraded_mode = (inDegradedMode s).2.degraded_mode := by
  rcases h : inDegradedMode s with ⟨b, t⟩
  by_cases hne : s.need_ecm = true
  · simp only [changeECM, hne, if_true, h]
    cases b
    · simp only [Bool.false_eq_true, if_false]
      repeat' split
      all_goals simp [initNextSlot_degraded_mode]
    · simp
  · have h' : s.need_ecm = false := by revert hne; cases s.need_ecm <;> simp
    have h2 : inDegradedMode s = (false, s) := by simp [inDegradedMode, h']
    have h12 := h2.symm.trans h
    injection h12 with hb ht
    simp only [changeECM, h', Bool.false_eq_true, if_false]
    rw [ht]

theorem inDegradedMode_snd_degraded (s : ScramblerState) (hne : s.need_ecm = true) :
    (inDegradedMode s).2.degraded_mode = (s.degraded_mode || !(nextECM s).ecm_ok) := by
  cases hdeg : s.degraded_mode <;> cases hok : (nextECM s).ecm_ok <;>
    simp [inDegradedMode, hne, hdeg, hok]

end Scrambler

/-- C1 counterexample: in the inter-packet scenario of the specification
(1000 stuffing packets, `--inter-packet 100 --pid 0x200`), the output
indices of the inserted packets are not 0, 100, 200, ..., 900. -/
theorem mux_inter_packet_claim_false :
    Mux.interPacketInsertions ≠ Mux.claimedInsertions := by decide

/-- C1 (amended): in that scenario the inserted packets land at output
indices 0, 99, 199, ..., 899 and 999: the packet counter is incremented
before being compared to the insertion threshold while the threshold
accumulates interval steps starting from 0, so after the insertion at
index 0 every later insertion happens at an index congruent to 99 modulo
100 — one slot earlier than the claimed p + k, and an eleventh insertion
occurs at index 999. -/
theorem mux_inter_packet_insertions :
    Mux.interPacketInsertions =
      [0, 99, 199, 299, 399, 499, 599, 699, 799, 899, 999] := by decide

/-- C8: evaluating `ts::MuxPlugin::processPacket` with `--pts-pid` unset
(`pts_pid = 0`) on a null packet (PID 0x1FFF) carrying a PCR: the code
latches the reference `_pts_pid` to the null PID 0x1FFF, contrary to the
specification, which states that the latch only occurs for non-null PIDs. -/
theorem mux_null_pid_pcr_latch :
    Mux.latchState.pts_pid = 0 ∧
    (Mux.processPacket Mux.latchState Mux.nullPcrPacket).2.2.pts_pid = PID_NULL := by
  decide

/-- C9: with `--pcr --csv`, header enabled and the default separator, the
first line written by the PCR extractor's `start()` is exactly the literal
CSV header row. -/
theorem pcrextract_csv_header :
    PCRExtract.startHeaderLine PCRExtract.pcrCsvOptions =
      some "PID;Packet index in TS;Packet index in PID;Type;Count in PID;Value;Value offset in PID;Offset from PCR" := by
  decide

/-- C3: the scrambler's `delay_start` validation at startup rejects the
configuration (so `start()` fails) exactly when `|delay_start|` exceeds
half the crypto-period duration; 0 and ± cp_duration/2 are accepted.
`cp_duration` is `1000 * n` milliseconds for a positive `--cp-duration`
of `n` seconds, so its half is `500 * n`. -/
theorem scrambler_delay_start_check (d n : Int) (hn : 1 ≤ n) :
    Scrambler.delayStartRejected d (1000 * n) = true ↔ 500 * n < |d| := by
  have h2 : Int.tdiv (1000 * n) 2 = 500 * n := by
    rw [show (1000 : Int) * n = 500 * n * 2 by ring,
        Int.mul_tdiv_cancel _ (by norm_num)]
  have h3 : Int.tdiv (-(1000 * n)) 2 = -(500 * n) := by
    rw [show -((1000 : Int) * n) = -(500 * n) * 2 by ring,
        Int.mul_tdiv_cancel _ (by norm_num)]
  simp only [Scrambler.delayStartRejected, Bool.or_eq_true, decide_eq_true_eq, h2, h3]
  rcases abs_cases d with ⟨h4, h5⟩ <;> omega

/-- Witness for C3: at `cp_duration = 10000` ms, a `delay_start` of 5000 ms
sits exactly at the +cp/2 boundary and is accepted. -/
theorem scrambler_delay_start_check_witness :
    Scrambler.delayStartRejected 5000 (1000 * 10) = true ↔ 500 * 10 < |(5000 : Int)| :=
  scrambler_delay_start_check 5000 10 (by norm_num)

/-- C2: with ECMs in use, while the scrambler is in degraded mode a call to
`changeCW` leaves `_current_cw`, the cipher control word and parity
unchanged (no crypto-period transition), a call to `changeECM` leaves
`_current_ecm` unchanged, and degraded mode persists; moreover after either
transition attempt the scrambler is in degraded mode exactly when it
already was or the next ECM (`nextECM().ecmReady()`) was not ready. -/
theorem scrambler_degraded_no_transition (s : Scrambler.ScramblerState)
    (hne : s.need_ecm = true) :
    (s.degraded_mode = true →
      (Scrambler.changeCW s).current_cw = s.current_cw ∧
      (Scrambler.changeCW s).scr_cw = s.scr_cw ∧
      (Scrambler.changeCW s).scr_parity = s.scr_parity ∧
      (Scrambler.changeCW s).degraded_mode = true ∧
      (Scrambler.changeECM s).current_ecm = s.current_ecm ∧
      (Scrambler.changeECM s).degraded_mode = true) ∧
    (Scrambler.changeCW s).degraded_mode =
      (s.degraded_mode || !(Scrambler.nextECM s).ecm_ok) ∧
    (Scrambler.changeECM s).degraded_mode =
      (s.degraded_mode || !(Scrambler.nextECM s).ecm_ok) := by
  refine ⟨?_, ?_, ?_⟩
  · intro hdeg
    have h1 : Scrambler.inDegradedMode s = (true, s) := by
      simp [Scrambler.inDegradedMode, hne, hdeg]
    simp [Scrambler.changeCW, Scrambler.changeECM, h1, hne, hdeg]
  · rw [Scrambler.changeCW_degraded_mode, Scrambler.inDegradedMode_snd_degraded s hne]
  · rw [Scrambler.changeECM_degraded_mode, Scrambler.inDegradedMode_snd_degraded s hne]

/-- Witness for C2: the degraded-mode no-transition theorem evaluated on a
concrete degraded scrambler state. -/
theorem scrambler_degraded_no_transition_witness :
    (Scrambler.degradedExample.degraded_mode = true →
      (Scrambler.changeCW Scrambler.degradedExample).current_cw =
        Scrambler.degradedExample.current_cw ∧
      (Scrambler.changeCW Scrambler.degradedExample).scr_cw =
        Scrambler.degradedExample.scr_cw ∧
      (Scrambler.changeCW Scrambler.degradedExample).scr_parity =
        Scrambler.degradedExample.scr_parity ∧
      (Scrambler.changeCW Scrambler.degradedExample).degraded_mode = true ∧
      (Scrambler.changeECM Scrambler.degradedExample).current_ecm =
        Scrambler.degradedExample.current_ecm ∧
      (Scrambler.changeECM Scrambler.degradedExample).degraded_mode = true) ∧
    (Scrambler.changeCW Scrambler.degradedExample).degraded_mode =
      (Scrambler.degradedExample.degraded_mode ||
        !(Scrambler.nextECM Scrambler.degradedExample).ecm_ok) ∧
    (Scrambler.changeECM Scrambler.degradedExample).degraded_mode =
      (Scrambler.degradedExample.degraded_mode ||
        !(Scrambler.nextECM Scrambler.degradedExample).ecm_ok) :=
  scrambler_degraded_no_transition Scrambler.degradedExample rfl

/-- C10: as long as the scrambler's set of PIDs to scramble is empty (the
PMT of the service has not been analyzed yet), `processPacket` replaces
every packet — whatever its PID — with a null packet by returning status
`TSP_NULL`, provided none of the earlier checks (abort / non-existent
service, ECM PID conflict) already returned `TSP_END`. -/
theorem scrambler_nullify_before_pmt (feed : Scrambler.ScramblerState → Scrambler.ScramblerState)
    (s : Scrambler.ScramblerState) (pkt : TSPacket) (br : Nat) :
    (Scrambler.entryState feed s pkt br).abort = false →
    (Scrambler.entryState feed s pkt br).service_nonexistent = false →
    ((Scrambler.entryState feed s pkt br).ecm_pid = PID_NULL ∨
      pkt.pid ≠ (Scrambler.entryState feed s pkt br).ecm_pid) →
    (Scrambler.entryState feed s pkt br).scrambled_pids.isEmpty = true →
    (Scrambler.processPacketEntry feed s pkt br).1 = some TSP_NULL := by
  intro h1 h2 h3 h4
  simp only [Scrambler.processPacketEntry]
  rw [if_neg (by simp [h1, h2]),
      if_neg (by rintro ⟨a, b⟩; rcases h3 with h | h; exact a h; exact h b),
      if_pos h4]

/-- Witness for C10: at a concrete pre-PMT state (empty scramble set) and a
service packet, the entry checks return `TSP_NULL`. -/
theorem scrambler_nullify_before_pmt_witness :
    (Scrambler.processPacketEntry id Scrambler.prePmtExample Scrambler.servicePacket 0).1 =
      some TSP_NULL :=
  scrambler_nullify_before_pmt id Scrambler.prePmtExample Scrambler.servicePacket 0
    (by decide) (by decide) (by decide) (by decide)

namespace NullInput

theorem receiveLoop_eq (M : Nat) : ∀ (m c : Nat),
    receiveLoop M m c =
      (List.replicate (min m (M - c)) NullPacket,
       if m ≤ M - c then c + m else if c ≤ M then M + 1 else c + 1) := by
  intro m
  induction m with
  | zero => intro c; simp [receiveLoop]
  | succ m ih =>
    intro c
    simp only [receiveLoop]
    by_cases h : c < M
    · rw [if_pos h, ih (c + 1)]
      simp only [Prod.mk.injEq]
      constructor
      · rw [show min (m + 1) (M - c) = min m (M - (c + 1)) + 1 by omega,
            List.replicate_succ]
      · split_ifs <;> omega
    · rw [if_neg h]
      simp only [Prod.mk.injEq]
      constructor
      · rw [show min (m + 1) (M - c) = 0 by omega, List.replicate_zero]
      · split_ifs <;> omega

theorem run_spec (M : Nat) : ∀ (reqs : List Nat) (c : Nat),
    (∀ out ∈ (run ⟨M, c, false, false⟩ reqs).1, ∀ p ∈ out, p = NullPacket) ∧
    List.Forall₂ (fun (out : List TSPacket) m => out.length ≤ m)
      (run ⟨M, c, false, false⟩ reqs).1 reqs ∧
    (((run ⟨M, c, false, false⟩ reqs).1.map List.length).sum = min reqs.sum (M - c)) := by
  intro reqs
  induction reqs with
  | nil => intro c; simp [run]
  | cons m rest ih =>
    intro c
    have hrecv : receive ⟨M, c, false, false⟩ m =
        (List.replicate (min m (M - c)) NullPacket,
         ⟨M, if m ≤ M - c then c + m else if c ≤ M then M + 1 else c + 1,
          false, false⟩) := by
      simp [receive, receiveLoop_eq]
    simp only [run, hrecv]
    rcases ih (if m ≤ M - c then c + m else if c ≤ M then M + 1 else c + 1) with
      ⟨ih1, ih2, ih3⟩
    refine ⟨?_, ?_, ?_⟩
    · intro out hout p hp
      rcases List.mem_cons.mp hout with hout1 | hout1
      · exact List.eq_of_mem_replicate (hout1 ▸ hp)
      · exact ih1 out hout1 p hp
    · exact List.Forall₂.cons (by simp) ih2
    · simp only [List.map_cons, List.sum_cons, List.length_replicate, ih3]
      split_ifs <;> omega

end NullInput

/-- C5: for the null input plugin started with a count `M` and without
`--joint-termination`, over any sequence of `receive` calls: every returned
packet is the null packet (PID 0x1FFF), each call returns at most the
requested `max_packets`, and the total number of packets returned is
exactly `min (sum of requests) M` — so the concatenation of the buffers
contains exactly `M` packets once `M` or more have been requested, and
every call after exhaustion returns 0 packets. -/
theorem nullinput_receive_exact (M : Nat) (reqs : List Nat) :
    (∀ out ∈ (NullInput.run (NullInput.init M) reqs).1, ∀ p ∈ out, p = NullPacket) ∧
    List.Forall₂ (fun (out : List TSPacket) m => out.length ≤ m)
      (NullInput.run (NullInput.init M) reqs).1 reqs ∧
    ((NullInput.run (NullInput.init M) reqs).1.map List.length).sum = min reqs.sum M := by
  have h := NullInput.run_spec M reqs 0
  simpa [NullInput.init] using h

/-- C4: in the PCR/PTS extractor with `--good-pts-only` (and PTS reporting
on), for a PID whose context has already seen a PTS: the observation is
reported iff it is good, `last_good_pts` advances exactly on good
observations, and an observation is good iff the new PTS exceeds
`last_good_pts` by a positive difference `d ∈ (-2^32, 2^32) ∩ (0, 2^32)`
modulo the 2^33 PTS wrap (signed wrap-around comparison), so a wrap at
2^33 does not break the filter. -/
theorem pcrextract_good_pts_filter (pc : PCRExtract.PIDContext) (pts : Nat)
    (hp : pts < PCRExtract.PTS_DTS_SCALE)
    (hl : pc.last_good_pts < PCRExtract.PTS_DTS_SCALE)
    (hn : pc.pts_count ≠ 0) :
    ((PCRExtract.ptsStep true true pc pts).1 = true ↔
       PCRExtract.SequencedPTS pc.last_good_pts pts = true) ∧
    ((PCRExtract.ptsStep true true pc pts).2.last_good_pts =
       if PCRExtract.SequencedPTS pc.last_good_pts pts then pts
       else pc.last_good_pts) ∧
    (PCRExtract.SequencedPTS pc.last_good_pts pts = true ↔
       ∃ d : ℤ, -(2 ^ 32) < d ∧ 0 < d ∧ d < 2 ^ 32 ∧
         ((pts : ℤ) - (pc.last_good_pts : ℤ) - d) % (2 ^ 33) = 0) := by
  have hscale : PCRExtract.PTS_DTS_SCALE = 2 ^ 33 := rfl
  rw [hscale] at hp hl
  refine ⟨?_, ?_, ?_⟩
  · simp [PCRExtract.ptsStep, hn]
  · simp [PCRExtract.ptsStep, hn]
    split <;> rfl
  · have hle : pc.last_good_pts ≤ pts + 2 ^ 33 := by omega
    have hcast : (((pts + 2 ^ 33 - pc.last_good_pts) % 2 ^ 33 : Nat) : ℤ) =
        ((pts : ℤ) + 2 ^ 33 - (pc.last_good_pts : ℤ)) % 2 ^ 33 := by
      omega
    simp only [PCRExtract.SequencedPTS, hscale, Bool.and_eq_true, decide_eq_true_eq]
    constructor
    · rintro ⟨h1, h2⟩
      refine ⟨(((pts + 2 ^ 33 - pc.last_good_pts) % 2 ^ 33 : Nat) : ℤ), ?_, ?_, ?_, ?_⟩
      · have := Int.natCast_nonneg ((pts + 2 ^ 33 - pc.last_good_pts) % 2 ^ 33)
        omega
      · exact_mod_cast h1
      · exact_mod_cast h2
      · omega
    · rintro ⟨d, hd0, hd1, hd2, hd3⟩
      have hnn : (0 : ℤ) ≤ (((pts + 2 ^ 33 - pc.last_good_pts) % 2 ^ 33 : Nat) : ℤ) :=
        Int.natCast_nonneg _
      constructor
      · zify
        omega
      · zify
        omega

/-- Witness for C4: a PTS of 5 just after the wrap is good with respect to
a `last_good_pts` of 2^33 - 100 (wrapped difference 105). -/
theorem pcrextract_good_pts_filter_witness :
    ((PCRExtract.ptsStep true true ⟨1, 0, 2 ^ 33 - 100⟩ 5).1 = true ↔
       PCRExtract.SequencedPTS (⟨1, 0, 2 ^ 33 - 100⟩ : PCRExtract.PIDContext).last_good_pts 5 = true) ∧
    ((PCRExtract.ptsStep true true ⟨1, 0, 2 ^ 33 - 100⟩ 5).2.last_good_pts =
       if PCRExtract.SequencedPTS (⟨1, 0, 2 ^ 33 - 100⟩ : PCRExtract.PIDContext).last_good_pts 5 then 5
       else (⟨1, 0, 2 ^ 33 - 100⟩ : PCRExtract.PIDContext).last_good_pts) ∧
    (PCRExtract.SequencedPTS (⟨1, 0, 2 ^ 33 - 100⟩ : PCRExtract.PIDContext).last_good_pts 5 = true ↔
       ∃ d : ℤ, -(2 ^ 32) < d ∧ 0 < d ∧ d < 2 ^ 32 ∧
         ((5 : ℤ) - ((⟨1, 0, 2 ^ 33 - 100⟩ : PCRExtract.PIDContext).last_good_pts : ℤ) - d) % (2 ^ 33) = 0) :=
  pcrextract_good_pts_filter ⟨1, 0, 2 ^ 33 - 100⟩ 5
    (by norm_num [PCRExtract.PTS_DTS_SCALE])
    (by norm_num [PCRExtract.PTS_DTS_SCALE])
    (by norm_num)

namespace Mux

theorem timestampUpdate_inserted (s : MuxState) (pkt : TSPacket) :
    (timestampUpdate s pkt).inserted_packet_count = s.inserted_packet_count := by
  simp only [timestampUpdate, latchPtsPid, checkMinPts, checkInterTime, checkMaxPts]
  split_ifs <;> rfl

theorem timestampUpdate_max_insert (s : MuxState) (pkt : TSPacket) :
    (timestampUpdate s pkt).max_insert_count = s.max_insert_count := by
  simp only [timestampUpdate, latchPtsPid, checkMinPts, checkInterTime, checkMaxPts]
  split_ifs <;> rfl

theorem timestampUpdate_file (s : MuxState) (pkt : TSPacket) :
    (timestampUpdate s pkt).file = s.file := by
  simp only [timestampUpdate, latchPtsPid, checkMinPts, checkInterTime, checkMaxPts]
  split_ifs <;> rfl

theorem timestampUpdate_no_ts (s : MuxState) (pkt : TSPacket)
    (h1 : pkt.hasPTS = false) (h2 : pkt.hasPCR = false) :
    timestampUpdate s pkt = s := by
  simp [timestampUpdate, latchPtsPid, getTimeStamp, h1, h2]

theorem insertFromFile_inserted_le (u : MuxState) (pkt : TSPacket) :
    (insertFromFile u pkt).2.2.inserted_packet_count ≤
      u.inserted_packet_count + 1 := by
  simp only [insertFromFile]
  split
  · split_ifs <;> simp
  · split_ifs <;> simp

theorem insertFromFile_conflict (u : MuxState) (pkt q : TSPacket)
    (rest : List TSPacket)
    (hfile : u.file = q :: rest) (hck : u.check_pid_conflict = true)
    (hconf : (if u.force_pid then u.force_pid_value else q.pid) ∈ u.ts_pids) :
    (insertFromFile u pkt).1 = TSP_END := by
  simp only [insertFromFile, hfile]
  by_cases hf : u.force_pid = true <;> split_ifs <;> first | rfl | simp_all

end Mux

/-- C6: in the mux stage with `--max-insert-count` set (non-zero), the
number of inserted packets never exceeds the cap — one `processPacket`
step preserves `_inserted_packet_count ≤ _max_insert_count` — and once the
cap is reached every subsequent stuffing packet is passed through
unchanged (status `TSP_OK`, same packet, no read from the side file, no
further increment).  The `s.bitrate = 0 ∨ s.packet_count ≠ 0` hypothesis
rules out the once-only `--bitrate` initialization error branch, which
cannot coincide with a reached cap in a real run. -/
theorem mux_max_insert_cap (s : Mux.MuxState) (pkt : TSPacket)
    (hmax : s.max_insert_count ≠ 0) :
    (s.inserted_packet_count ≤ s.max_insert_count →
       (Mux.processPacket s pkt).2.2.inserted_packet_count ≤ s.max_insert_count) ∧
    (pkt.pid = PID_NULL → s.max_insert_count ≤ s.inserted_packet_count →
     (s.bitrate = 0 ∨ s.packet_count ≠ 0) →
       (Mux.processPacket s pkt).1 = TSP_OK ∧
       (Mux.processPacket s pkt).2.1 = pkt ∧
       (Mux.processPacket s pkt).2.2.file = s.file ∧
       (Mux.processPacket s pkt).2.2.inserted_packet_count =
         s.inserted_packet_count) := by
  constructor
  · intro hle
    by_cases h1 : s.packet_count = 0 ∧ s.bitrate ≠ 0 ∧ s.ts_bitrate < s.bitrate
    · simp only [Mux.processPacket]; rw [if_pos h1]; exact hle
    · by_cases h2 : s.packet_count = 0 ∧ s.bitrate ≠ 0 <;>
        · simp only [Mux.processPacket]
          rw [if_neg h1]
          first
            | rw [if_pos h2]
            | rw [if_neg h2]
          split_ifs with h3 h4 h5
          · simpa [Mux.timestampUpdate_inserted] using hle
          · simpa [Mux.timestampUpdate_inserted] using hle
          · simpa [Mux.timestampUpdate_inserted] using hle
          · refine le_trans (Mux.insertFromFile_inserted_le _ pkt) ?_
            push_neg at h5
            simp only [Mux.timestampUpdate_inserted,
                       Mux.timestampUpdate_max_insert] at h5 ⊢
            simp only [ne_eq] at h5
            omega
  · intro hpid hge hinit
    have h1 : ¬(s.packet_count = 0 ∧ s.bitrate ≠ 0 ∧ s.ts_bitrate < s.bitrate) := by
      rcases hinit with h | h <;> simp [h]
    have h2 : ¬(s.packet_count = 0 ∧ s.bitrate ≠ 0) := by
      rcases hinit with h | h <;> simp [h]
    simp only [Mux.processPacket]
    rw [if_neg h1, if_neg h2]
    rw [if_neg (show ¬(pkt.pid ≠ PID_NULL) from by simp [hpid])]
    split_ifs with h4 h5
    · exact ⟨rfl, rfl, by simp [Mux.timestampUpdate_file],
             by simp [Mux.timestampUpdate_inserted]⟩
    · exact ⟨rfl, rfl, by simp [Mux.timestampUpdate_file],
             by simp [Mux.timestampUpdate_inserted]⟩
    · exfalso
      apply h5
      right
      simp only [Mux.timestampUpdate_inserted, Mux.timestampUpdate_max_insert]
      exact ⟨hmax, hge⟩

/-- Witness for C6: a concrete mux state whose cap of 5 insertions has been
reached, processing a stuffing packet. -/
theorem mux_max_insert_cap_witness :
    (Mux.cappedState.inserted_packet_count ≤ Mux.cappedState.max_insert_count →
       (Mux.processPacket Mux.cappedState NullPacket).2.2.inserted_packet_count ≤
         Mux.cappedState.max_insert_count) ∧
    (NullPacket.pid = PID_NULL →
     Mux.cappedState.max_insert_count ≤ Mux.cappedState.inserted_packet_count →
     (Mux.cappedState.bitrate = 0 ∨ Mux.cappedState.packet_count ≠ 0) →
       (Mux.processPacket Mux.cappedState NullPacket).1 = TSP_OK ∧
       (Mux.processPacket Mux.cappedState NullPacket).2.1 = NullPacket ∧
       (Mux.processPacket Mux.cappedState NullPacket).2.2.file =
         Mux.cappedState.file ∧
       (Mux.processPacket Mux.cappedState NullPacket).2.2.inserted_packet_count =
         Mux.cappedState.inserted_packet_count) :=
  mux_max_insert_cap Mux.cappedState NullPacket (by decide)

/-- C7: in the mux stage with the PID conflict check enabled (the default),
when it is time to insert and the side-file packet's PID — after the
optional `--pid` rewrite — is already among the PIDs previously seen in
the transport stream, `processPacket` returns `TSP_END`, terminating the
pipeline.  The packet processed is a stuffing packet without timestamps,
and the hypotheses put the state at an insertion point. -/
theorem mux_pid_conflict_end (s : Mux.MuxState) (pkt q : TSPacket)
    (rest : List TSPacket)
    (hck : s.check_pid_conflict = true)
    (hpid : pkt.pid = PID_NULL)
    (hpts : pkt.hasPTS = false) (hpcr : pkt.hasPCR = false)
    (hinit : s.bitrate = 0 ∨ s.packet_count ≠ 0)
    (htime : s.pid_next_pkt ≤ s.packet_count + 1)
    (hrange : s.pts_range_ok = true)
    (hcap : s.max_insert_count = 0 ∨
      s.inserted_packet_count < s.max_insert_count)
    (hfile : s.file = q :: rest)
    (hconf : (if s.force_pid then s.force_pid_value else q.pid) ∈ s.ts_pids) :
    (Mux.processPacket s pkt).1 = TSP_END := by
  have h1 : ¬(s.packet_count = 0 ∧ s.bitrate ≠ 0 ∧ s.ts_bitrate < s.bitrate) := by
    rcases hinit with h | h <;> simp [h]
  have h2 : ¬(s.packet_count = 0 ∧ s.bitrate ≠ 0) := by
    rcases hinit with h | h <;> simp [h]
  simp only [Mux.processPacket]
  rw [if_neg h1, if_neg h2]
  rw [Mux.timestampUpdate_no_ts _ _ hpts hpcr]
  rw [if_neg (show ¬(pkt.pid ≠ PID_NULL) from by simp [hpid])]
  split_ifs with h4 h5
  · exfalso
    simp only at h4
    omega
  · exfalso
    rcases h5 with h5 | h5
    · simp only at h5
      exact h5 hrange
    · simp only at h5
      rcases hcap with hc | hc
      · exact h5.1 hc
      · omega
  · exact Mux.insertFromFile_conflict _ pkt q rest hfile hck hconf

/-- Witness for C7: the conflict scenario state (PID 0x200 already seen in
the TS, side file carrying PID 0x200) on a stuffing packet ends the
pipeline. -/
theorem mux_pid_conflict_end_witness :
    (Mux.processPacket Mux.conflictState NullPacket).1 = TSP_END :=
  mux_pid_conflict_end Mux.conflictState NullPacket Mux.sidePacket []
    (by decide) (by decide) (by decide) (by decide) (Or.inl (by decide))
    (by decide) (by decide) (Or.inl (by decide)) (by decide) (by decide)
